import Mathlib

/-! Shallow embedding of the iris Siamese-network training script
(src/main.py).  Randomness is modelled by an oracle stream
rng : Nat → Nat: the k-th random draw of a call reads rng k, and
random.randint maps the oracle value into the requested inclusive range.
Python exceptions are modelled with Except String.  Tensor cells coming
from torch.empty are uninitialized, modelled as none. -/

/-- Explicit bind on Except, used so that proofs about the embedded
control flow stay transparent. -/
def ebind {α β : Type} (x : Except String α) (f : α → Except String β) :
    Except String β :=
  match x with
  | Except.error e => Except.error e
  | Except.ok a => f a

@[simp] theorem ebind_err {α β : Type} (e : String) (f : α → Except String β) :
    ebind (Except.error e) f = Except.error e := rfl

@[simp] theorem ebind_ok {α β : Type} (a : α) (f : α → Except String β) :
    ebind (Except.ok a) f = f a := rfl

/-- Python attribute read: self.name raises AttributeError when the
attribute was never assigned. -/
def getAttr {α : Type} (x : Option α) (attrName : String) : Except String α :=
  match x with
  | none => Except.error ("AttributeError: " ++ attrName)
  | some a => Except.ok a

/-- Checked list indexing: arr[i] raises IndexError when i is out of range. -/
def listGet {α : Type} (l : List α) (i : Nat) : Except String α :=
  match l.get? i with
  | none => Except.error "IndexError"
  | some a => Except.ok a

/-- Embeds random.randint(a, b): an inclusive draw, realised through the
oracle value r; raises ValueError when b < a, which is what
random.randint(0, -1) does on an empty class. -/
def randint (a b : Int) (r : Nat) : Except String Int :=
  if b < a then Except.error "ValueError: empty range for randrange()"
  else Except.ok (a + (r : Int) % (b - a + 1))

/-- State of an IrisDataset instance (src/main.py lines 95-127).  Python
attributes that the constructor may or may not have assigned are Options:
none models a missing attribute whose read raises AttributeError. -/
structure IrisDataset (Img : Type) where
  images : List (Option Img)
  labels : List Int
  grouped_examples : Option (List (List Nat))
  data : Option (List Img)
  dataset_targets : Option (List Int)

/-- Embeds IrisDataset.__init__ (lines 96-126): allocates an uninitialized
buffer with one slot per file (torch.empty, line 101), then writes every
transformed image into slot 0 — line 106 assigns self.images[0] on each
loop iteration — stores the labels, and leaves grouped_examples, data and
the wrapped dataset unassigned, because the group_examples() call
(line 126), the data assignment (line 124) and the MNIST download
(line 115) are all commented out.  Image decoding and preprocessing
(Image.open followed by the torchvision transform) are fused into the
abstract transform argument. -/
def IrisDataset.init {F Img : Type} (file_names : List F) (labels : List Int)
    (final_height final_width : Nat) (transform : F → Img) : IrisDataset Img :=
  { images := file_names.foldl (fun imgs f => imgs.set 0 (some (transform f)))
      (List.replicate file_names.length none)
    labels := labels
    grouped_examples := none
    data := none
    dataset_targets := none }

/-- Embeds np.where(np_arr == i)[0] for one class value (line 144): the
ascending list of positions of targets holding value i. -/
def whereEq (targets : List Int) (i : Int) : List Nat :=
  (List.range targets.length).filter (fun j => targets.getD j 0 == i)

/-- Embeds the dictionary built by group_examples (lines 142-144): one
entry per class 0..9, independent of which class labels the dataset
actually holds. -/
def groupExamplesDict (targets : List Int) : List (List Nat) :=
  (List.range 10).map (fun i => whereEq targets (i : Int))

/-- Embeds the IrisDataset.group_examples method (lines 128-144): it reads
self.dataset.targets (line 139), an attribute the constructor never
assigns, and groups the target indices by class 0..9. -/
def IrisDataset.group_examples {Img : Type} (ds : IrisDataset Img) :
    Except String (List (List Nat)) :=
  ebind (getAttr ds.dataset_targets "dataset") (fun ts =>
    Except.ok (groupExamplesDict ts))

/-- Embeds IrisDataset.__len__ (lines 146-147): reads self.data.shape[0];
self.data is an attribute the constructor never assigns (line 124 is
commented out). -/
def IrisDataset.len {Img : Type} (ds : IrisDataset Img) : Except String Nat :=
  ebind (getAttr ds.data "data") (fun d => Except.ok d.length)

/-- Embeds the draw-then-retry loops of __getitem__ (lines 180-184 and
lines 198-202): draw randint(0, bound) and redraw while the value equals
avoid.  pos is the oracle position of the next draw; fuel bounds the
number of draws, and running out of fuel models the loop spinning forever
on an oracle that never yields a fresh value. -/
def redrawUntilNe (bound avoid : Int) (rng : Nat → Nat) :
    Nat → Nat → Except String (Int × Nat)
  | _, 0 => Except.error "RecursionError: resample loop"
  | pos, fuel + 1 =>
      ebind (randint 0 bound (rng pos)) (fun r =>
        if r = avoid then redrawUntilNe bound avoid rng (pos + 1) fuel
        else Except.ok (r, pos + 1))

/-- Trace of one __getitem__ call: the sampled classes and indices
together with the returned images and target. -/
structure PairTrace (Img : Type) where
  selected_class : Int
  class_2 : Int
  index_1 : Nat
  index_2 : Nat
  image_1 : Img
  image_2 : Img
  target : Nat
deriving DecidableEq

/-- Embeds IrisDataset.__getitem__ (lines 149-218), keeping the trace of
the sampled classes and indices.  Oracle positions: draw 0 is the class
of the first image (line 165), draw 1 its index within the class
(line 169), draws from position 2 feed the even-branch index-resampling
loop (lines 180-184) or the odd-branch class-resampling loop
(lines 198-202), and the odd branch then draws the second index at the
next unused position (line 207).  Attribute reads of
self.grouped_examples (line 169) and self.data (line 175) raise
AttributeError when unassigned, in source order. -/
def IrisDataset.getItemT {Img : Type} (ds : IrisDataset Img) (rng : Nat → Nat)
    (fuel index : Nat) : Except String (PairTrace Img) :=
  ebind (randint 0 9 (rng 0)) (fun selected_class =>
  ebind (getAttr ds.grouped_examples "grouped_examples") (fun grouped =>
  ebind (randint 0 (((grouped.getD selected_class.toNat []).length : Int) - 1)
      (rng 1)) (fun random_index_1 =>
  ebind (getAttr ds.data "data") (fun data =>
  ebind (listGet data
      ((grouped.getD selected_class.toNat []).getD random_index_1.toNat 0))
      (fun image_1 =>
  if index % 2 = 0 then
    ebind (redrawUntilNe (((grouped.getD selected_class.toNat []).length : Int) - 1)
        random_index_1 rng 2 fuel) (fun rp =>
    ebind (listGet data
        ((grouped.getD selected_class.toNat []).getD rp.1.toNat 0)) (fun image_2 =>
    Except.ok
      { selected_class := selected_class
        class_2 := selected_class
        index_1 := (grouped.getD selected_class.toNat []).getD random_index_1.toNat 0
        index_2 := (grouped.getD selected_class.toNat []).getD rp.1.toNat 0
        image_1 := image_1
        image_2 := image_2
        target := 1 }))
  else
    ebind (redrawUntilNe 9 selected_class rng 2 fuel) (fun op =>
    ebind (randint 0 (((grouped.getD op.1.toNat []).length : Int) - 1) (rng op.2))
        (fun random_index_2 =>
    ebind (listGet data
        ((grouped.getD op.1.toNat []).getD random_index_2.toNat 0)) (fun image_2 =>
    Except.ok
      { selected_class := selected_class
        class_2 := op.1
        index_1 := (grouped.getD selected_class.toNat []).getD random_index_1.toNat 0
        index_2 := (grouped.getD op.1.toNat []).getD random_index_2.toNat 0
        image_1 := image_1
        image_2 := image_2
        target := 0 }))))))))

/-- The triple (image_1, image_2, target) that __getitem__ returns
(line 218). -/
def IrisDataset.getItem {Img : Type} (ds : IrisDataset Img) (rng : Nat → Nat)
    (fuel index : Nat) : Except String (Img × Img × Nat) :=
  (ds.getItemT rng fuel index).map (fun t => (t.image_1, t.image_2, t.target))

/-- One step of the script's main() pipeline (lines 274-361), in
execution order; steps whose lines are commented out in the source never
appear in mainSteps. -/
inductive PipelineStep where
  | parseArgs
  | setManualSeed
  | selectDevice
  | enumerateClassNames
  | globFilePaths
  | computeLabels
  | stratifiedSplit
  | buildTrainPairDataset
  | buildTestPairDataset
  | buildTrainLoader
  | buildTestLoader
  | buildModel
  | buildOptimizer
  | buildLossFn
  | buildScheduler
  | runTrainEpoch
  | runTestEpoch
  | stepScheduler
  | saveModelWeights
deriving DecidableEq

/-- The steps main() actually executes (lines 274-361): argument parsing,
seeding (line 304), device selection (lines 306-311), file enumeration
and labelling (lines 322-327), the stratified split (lines 329-333), the
train pair dataset (line 345), model, optimizer, loss and scheduler
construction (lines 350-354), and the optional weight save (lines
360-361).  The test dataset (line 346), the loaders (lines 347-348) and
the per-epoch train/test loop (lines 355-358) are commented out. -/
def mainSteps (save_model : Bool) : List PipelineStep :=
  [PipelineStep.parseArgs, PipelineStep.setManualSeed, PipelineStep.selectDevice,
   PipelineStep.enumerateClassNames, PipelineStep.globFilePaths,
   PipelineStep.computeLabels, PipelineStep.stratifiedSplit,
   PipelineStep.buildTrainPairDataset, PipelineStep.buildModel,
   PipelineStep.buildOptimizer, PipelineStep.buildLossFn,
   PipelineStep.buildScheduler] ++
  (if save_model then [PipelineStep.saveModelWeights] else [])

/-- Logistic squashing function (nn.Sigmoid, line 68), over the reals. -/
noncomputable def sigmoid (x : ℝ) : ℝ := 1 / (1 + Real.exp (-x))

/-- One fully connected layer y = W v + b (nn.Linear). -/
noncomputable def linearLayer (m n : ℕ) (w : Fin n → Fin m → ℝ) (b : Fin n → ℝ)
    (v : Fin m → ℝ) : Fin n → ℝ :=
  fun i => (∑ j, w i j * v j) + b i

/-- ReLU activation (nn.ReLU, line 64). -/
def relu (x : ℝ) : ℝ := max x 0

/-- SiameseNetwork (lines 44-93) over an abstract backbone: back embeds
the shared ResNet-18 feature extractor (an external library component
applied identically to both inputs), d its feature dimension
(fc_in_features); w1, b1 and w2, b2 are the weights of the two nn.Linear
layers of self.fc (lines 62-66). -/
structure SiameseNetwork (Input : Type) (d : ℕ) where
  back : Input → Fin d → ℝ
  w1 : Fin 256 → Fin (d + d) → ℝ
  b1 : Fin 256 → ℝ
  w2 : Fin 1 → Fin 256 → ℝ
  b2 : Fin 1 → ℝ

/-- The comparison head self.fc (lines 62-66): Linear(2d, 256), ReLU,
Linear(256, 1), read off as the single scalar output. -/
noncomputable def SiameseNetwork.fc {Input : Type} {d : ℕ}
    (net : SiameseNetwork Input d) (v : Fin (d + d) → ℝ) : ℝ :=
  linearLayer 256 1 net.w2 net.b2
    (fun i => relu (linearLayer (d + d) 256 net.w1 net.b1 v i)) 0

/-- Embeds SiameseNetwork.forward (lines 79-93): the shared backbone on
each input, concatenation of the two feature vectors, the two linear
layers, then the sigmoid. -/
noncomputable def SiameseNetwork.forward {Input : Type} {d : ℕ}
    (net : SiameseNetwork Input d) (x1 x2 : Input) : ℝ :=
  sigmoid (net.fc (Fin.append (net.back x1) (net.back x2)))

/-- The sigmoid of a real number is strictly positive. -/
theorem sigmoid_pos (x : ℝ) : 0 < sigmoid x := by
  have h := Real.exp_pos (-x)
  unfold sigmoid
  positivity

/-- The sigmoid of a real number is strictly below one. -/
theorem sigmoid_lt_one (x : ℝ) : sigmoid x < 1 := by
  have h := Real.exp_pos (-x)
  unfold sigmoid
  rw [div_lt_one (by positivity)]
  linarith

/-- When the requested range is nonempty, randint succeeds with the
oracle value folded into the range. -/
theorem randint_eq_ok (a b : Int) (r : Nat) (h : a ≤ b) :
    randint a b r = Except.ok (a + (r : Int) % (b - a + 1)) := by
  unfold randint
  rw [if_neg (not_lt.mpr h)]

/-- A successful randint draw lies in the requested inclusive range. -/
theorem randint_ok_bounds (a b : Int) (r : Nat) (v : Int)
    (h : randint a b r = Except.ok v) : a ≤ v ∧ v ≤ b := by
  unfold randint at h
  split at h
  · exact Except.noConfusion h
  · next hba =>
      injection h with hv
      have h1 : (0:Int) ≤ (r : Int) % (b - a + 1) := Int.emod_nonneg _ (by omega)
      have h2 : (r : Int) % (b - a + 1) < b - a + 1 := Int.emod_lt_of_pos _ (by omega)
      generalize hg : (r : Int) % (b - a + 1) = m at hv h1 h2
      omega

/-- A value the retry loop returns never equals the avoided value: this
is the negation of the while conditions at lines 183-184 and 201-202. -/
theorem redrawUntilNe_ok_ne (bound avoid : Int) (rng : Nat → Nat) :
    ∀ fuel pos r p,
      redrawUntilNe bound avoid rng pos fuel = Except.ok (r, p) → r ≠ avoid := by
  intro fuel
  induction fuel with
  | zero =>
      intro pos r p h
      exact Except.noConfusion h
  | succ n ih =>
      intro pos r p h
      simp only [redrawUntilNe] at h
      cases hv : randint 0 bound (rng pos) with
      | error e =>
          simp only [hv, ebind_err] at h
          exact Except.noConfusion h
      | ok v =>
          simp only [hv, ebind_ok] at h
          by_cases hva : v = avoid
          · rw [if_pos hva] at h
            exact ih (pos + 1) r p h
          · rw [if_neg hva] at h
            injection h with h2
            cases h2
            exact hva

/-- A value the retry loop returns lies in [0, bound]. -/
theorem redrawUntilNe_ok_bounds (bound avoid : Int) (rng : Nat → Nat) :
    ∀ fuel pos r p,
      redrawUntilNe bound avoid rng pos fuel = Except.ok (r, p) →
      0 ≤ r ∧ r ≤ bound := by
  intro fuel
  induction fuel with
  | zero =>
      intro pos r p h
      exact Except.noConfusion h
  | succ n ih =>
      intro pos r p h
      simp only [redrawUntilNe] at h
      cases hv : randint 0 bound (rng pos) with
      | error e =>
          simp only [hv, ebind_err] at h
          exact Except.noConfusion h
      | ok v =>
          simp only [hv, ebind_ok] at h
          by_cases hva : v = avoid
          · rw [if_pos hva] at h
            exact ih (pos + 1) r p h
          · rw [if_neg hva] at h
            injection h with h2
            cases h2
            exact randint_ok_bounds 0 bound (rng pos) _ hv

/-- If the range 0..n-1 is nonempty and the oracle eventually offers a
draw different from the avoided value, the retry loop over
randint(0, n-1) terminates with such a value. -/
theorem redrawUntilNe_terminates (n avoid : Int) (hn : 0 < n) (rng : Nat → Nat) :
    ∀ fuel pos,
      (∃ k, k < fuel ∧ (rng (pos + k) : Int) % n ≠ avoid) →
      ∃ r p, redrawUntilNe (n - 1) avoid rng pos fuel = Except.ok (r, p) ∧
        r ≠ avoid := by
  intro fuel
  induction fuel with
  | zero =>
      intro pos hex
      obtain ⟨k, hk, _⟩ := hex
      exact absurd hk (Nat.not_lt_zero k)
  | succ m ih =>
      intro pos hex
      have hnn : n - 1 - 0 + 1 = n := by omega
      have hr : randint 0 (n - 1) (rng pos)
          = Except.ok ((rng pos : Int) % n) := by
        unfold randint
        rw [if_neg (by omega), hnn, zero_add]
      by_cases hv : (rng pos : Int) % n = avoid
      · obtain ⟨k, hk, hkne⟩ := hex
        have hk0 : k ≠ 0 := by
          intro h0
          subst h0
          rw [Nat.add_zero] at hkne
          exact hkne hv
        obtain ⟨k0, rfl⟩ := Nat.exists_eq_succ_of_ne_zero hk0
        have hshift : pos + (k0 + 1) = pos + 1 + k0 := by omega
        obtain ⟨r, p, hrp, hrne⟩ := ih (pos + 1)
          ⟨k0, by omega, by rw [← hshift]; exact hkne⟩
        refine ⟨r, p, ?_, hrne⟩
        simp only [redrawUntilNe, hr, ebind_ok]
        rw [if_pos hv]
        exact hrp
      · refine ⟨(rng pos : Int) % n, pos + 1, ?_, hv⟩
        simp only [redrawUntilNe, hr, ebind_ok]
        rw [if_neg hv]

/-- C6: for an even index the second image is resampled inside the
selected class: if that class lists at least two example indices, without
duplicates (as np.where produces them), and the oracle eventually offers
a draw different from the first one, then the retry loop of lines
180-184 terminates, its result differs from random_index_1, and the
second image's index in the base data differs from the first image's
index. -/
theorem c6_even_resample_terminates_distinct (g1 : List Nat) (hnd : g1.Nodup)
    (hlen : 2 ≤ g1.length) (r1 : Int) (hr0 : 0 ≤ r1)
    (hr1 : r1 < (g1.length : Int)) (rng : Nat → Nat) (pos fuel : Nat)
    (hex : ∃ k, k < fuel ∧ (rng (pos + k) : Int) % (g1.length : Int) ≠ r1) :
    ∃ r2 p, redrawUntilNe ((g1.length : Int) - 1) r1 rng pos fuel
        = Except.ok (r2, p) ∧ r2 ≠ r1 ∧
        g1.getD r2.toNat 0 ≠ g1.getD r1.toNat 0 := by
  have hnpos : (0:Int) < (g1.length : Int) := by
    have : 0 < g1.length := by omega
    exact_mod_cast this
  obtain ⟨r2, p, hok, hne⟩ :=
    redrawUntilNe_terminates (g1.length : Int) r1 hnpos rng fuel pos hex
  obtain ⟨hb0, hb1⟩ :=
    redrawUntilNe_ok_bounds ((g1.length : Int) - 1) r1 rng fuel pos r2 p hok
  have hi2 : r2.toNat < g1.length := by omega
  have hi1 : r1.toNat < g1.length := by omega
  have hneq : r2.toNat ≠ r1.toNat := by omega
  refine ⟨r2, p, hok, hne, ?_⟩
  have e2 : g1.getD r2.toNat 0 = g1[r2.toNat] := by
    rw [List.getD_eq_getElem?_getD, List.getElem?_eq_getElem hi2]
    rfl
  have e1 : g1.getD r1.toNat 0 = g1[r1.toNat] := by
    rw [List.getD_eq_getElem?_getD, List.getElem?_eq_getElem hi1]
    rfl
  rw [e1, e2]
  intro hc
  exact hneq ((List.Nodup.getElem_inj_iff hnd).mp hc)

/-- Witness for C6 at a concrete class list [5, 7], first draw 0, the
identity oracle and fuel 3: the oracle's draw at position 3 maps to 1,
which differs from 0, so the loop stops with a distinct index. -/
theorem c6_witness :
    ∃ r2 p, redrawUntilNe ((([5, 7] : List Nat).length : Int) - 1) 0
        (fun k => k) 2 3 = Except.ok (r2, p) ∧ r2 ≠ 0 ∧
        ([5, 7] : List Nat).getD r2.toNat 0 ≠ ([5, 7] : List Nat).getD (0 : Int).toNat 0 :=
  c6_even_resample_terminates_distinct [5, 7] (by decide) (by decide) 0
    (by decide) (by decide) (fun k => k) 2 3 ⟨1, by omega, by decide⟩

/-- C1: the claim says "get pair at index" samples a class, a first image,
and a second image by index parity, returning the two images with label
1 or 0.  The code cannot do this: __init__ never builds grouped_examples
(the group_examples() call at line 126 is commented out), so on every
dataset the constructor produces, __getitem__ raises AttributeError at
line 169 instead of returning a pair, for every index, oracle and fuel. -/
theorem c1_getitem_raises_attribute_error {F Img : Type} (file_names : List F)
    (labels : List Int) (final_height final_width : Nat) (transform : F → Img)
    (rng : Nat → Nat) (fuel index : Nat) :
    (IrisDataset.init file_names labels final_height final_width
        transform).getItem rng fuel index
      = Except.error "AttributeError: grouped_examples" := rfl

/-- C3: the claim says the length operation returns the count of base
images.  The code's __len__ reads self.data, an attribute the constructor
never assigns (line 124 is commented out), so on every dataset the
constructor produces, __len__ raises AttributeError instead of returning
the number of base images. -/
theorem c3_len_raises_attribute_error {F Img : Type} (file_names : List F)
    (labels : List Int) (final_height final_width : Nat) (transform : F → Img) :
    (IrisDataset.init file_names labels final_height final_width
        transform).len
      = Except.error "AttributeError: data" := rfl

/-- C4: the claim says the label-to-indices mapping is built exactly once
during construction.  In the code it is never built: after __init__ the
grouped_examples attribute does not exist, and even calling the
group_examples method would raise AttributeError because it reads
self.dataset (line 139), which the constructor never assigns either. -/
theorem c4_grouped_examples_never_built {F Img : Type} (file_names : List F)
    (labels : List Int) (final_height final_width : Nat) (transform : F → Img) :
    (IrisDataset.init file_names labels final_height final_width
        transform).grouped_examples = none ∧
    (IrisDataset.init file_names labels final_height final_width
        transform).group_examples
      = Except.error "AttributeError: dataset" :=
  ⟨rfl, rfl⟩

/-- C5: the claim says the i-th stored image equals the transform of the
i-th file.  Evaluating __init__ on a two-file list shows otherwise: the
loop at lines 103-106 writes every transformed image into slot 0, so
slot 0 ends holding the transform of the LAST file and slot 1 stays
uninitialized (none), instead of [transform a, transform b]. -/
theorem c5_init_images_misindexed {F Img : Type} (a b : F) (labels : List Int)
    (final_height final_width : Nat) (transform : F → Img) :
    (IrisDataset.init [a, b] labels final_height final_width
        transform).images
      = [some (transform b), none] := rfl

/-- C9: the claim says main runs the full pipeline including a per-epoch
training pass and evaluation pass.  In the code the epoch loop (lines
355-358), the test dataset (line 346) and both loaders (lines 347-348)
are commented out: main never runs a training or evaluation epoch and
never builds the test pair dataset, while it does build the train pair
dataset and the model, and saves weights exactly when the flag is set. -/
theorem c9_main_skips_training_and_eval :
    (∀ save_model : Bool,
      PipelineStep.runTrainEpoch ∉ mainSteps save_model ∧
      PipelineStep.runTestEpoch ∉ mainSteps save_model ∧
      PipelineStep.buildTestPairDataset ∉ mainSteps save_model ∧
      PipelineStep.buildTrainPairDataset ∈ mainSteps save_model ∧
      PipelineStep.buildModel ∈ mainSteps save_model) ∧
    PipelineStep.saveModelWeights ∈ mainSteps true ∧
    PipelineStep.saveModelWeights ∉ mainSteps false := by
  decide

/-- C2: whenever __getitem__ returns a pair, the target is 1 exactly when
the second image's class is the class selected for the first image, and 0
exactly when it is a different class (lines 178-218). -/
theorem c2_target_iff_same_class {Img : Type} (ds : IrisDataset Img)
    (rng : Nat → Nat) (fuel index : Nat) (t : PairTrace Img)
    (h : ds.getItemT rng fuel index = Except.ok t) :
    (t.target = 1 ↔ t.class_2 = t.selected_class) ∧
    (t.target = 0 ↔ t.class_2 ≠ t.selected_class) := by
  unfold IrisDataset.getItemT at h
  cases h1 : randint 0 9 (rng 0) with
  | error e => simp only [h1, ebind_err] at h; exact Except.noConfusion h
  | ok sc =>
  simp only [h1, ebind_ok] at h
  cases h2 : getAttr ds.grouped_examples "grouped_examples" with
  | error e => simp only [h2, ebind_err] at h; exact Except.noConfusion h
  | ok grouped =>
  simp only [h2, ebind_ok] at h
  cases h3 : randint 0 (((grouped.getD sc.toNat []).length : Int) - 1) (rng 1) with
  | error e => simp only [h3, ebind_err] at h; exact Except.noConfusion h
  | ok r1 =>
  simp only [h3, ebind_ok] at h
  cases h4 : getAttr ds.data "data" with
  | error e => simp only [h4, ebind_err] at h; exact Except.noConfusion h
  | ok data =>
  simp only [h4, ebind_ok] at h
  cases h5 : listGet data ((grouped.getD sc.toNat []).getD r1.toNat 0) with
  | error e => simp only [h5, ebind_err] at h; exact Except.noConfusion h
  | ok image1 =>
  simp only [h5, ebind_ok] at h
  by_cases hp : index % 2 = 0
  · rw [if_pos hp] at h
    cases h6 : redrawUntilNe (((grouped.getD sc.toNat []).length : Int) - 1)
        r1 rng 2 fuel with
    | error e => simp only [h6, ebind_err] at h; exact Except.noConfusion h
    | ok rp =>
    simp only [h6, ebind_ok] at h
    cases h7 : listGet data ((grouped.getD sc.toNat []).getD rp.1.toNat 0) with
    | error e => simp only [h7, ebind_err] at h; exact Except.noConfusion h
    | ok image2 =>
    simp only [h7, ebind_ok] at h
    injection h with h8
    subst h8
    simp
  · rw [if_neg hp] at h
    cases h6 : redrawUntilNe 9 sc rng 2 fuel with
    | error e => simp only [h6, ebind_err] at h; exact Except.noConfusion h
    | ok op =>
    simp only [h6, ebind_ok] at h
    have h6e : redrawUntilNe 9 sc rng 2 fuel = Except.ok (op.1, op.2) := by
      rw [Prod.mk.eta]
      exact h6
    have hocne : op.1 ≠ sc := redrawUntilNe_ok_ne 9 sc rng fuel 2 op.1 op.2 h6e
    cases h7 : randint 0 (((grouped.getD op.1.toNat []).length : Int) - 1)
        (rng op.2) with
    | error e => simp only [h7, ebind_err] at h; exact Except.noConfusion h
    | ok r2 =>
    simp only [h7, ebind_ok] at h
    cases h8 : listGet data ((grouped.getD op.1.toNat []).getD r2.toNat 0) with
    | error e => simp only [h8, ebind_err] at h; exact Except.noConfusion h
    | ok image2 =>
    simp only [h8, ebind_ok] at h
    injection h with h9
    subst h9
    simp [hocne]

/-- Dataset state for the C2 witness: the sampler attributes are present,
class 0 holds the two base images. -/
def c2WitnessDs : IrisDataset Nat :=
  { images := []
    labels := []
    grouped_examples := some [[0, 1]]
    data := some [10, 20]
    dataset_targets := none }

/-- Trace the C2 witness call returns. -/
def c2WitnessTrace : PairTrace Nat :=
  { selected_class := 0
    class_2 := 0
    index_1 := 1
    index_2 := 0
    image_1 := 20
    image_2 := 10
    target := 1 }

/-- Witness for C2: a concrete even-index call that returns a same-class
pair labelled 1. -/
theorem c2_witness :
    (c2WitnessTrace.target = 1
        ↔ c2WitnessTrace.class_2 = c2WitnessTrace.selected_class) ∧
    (c2WitnessTrace.target = 0
        ↔ c2WitnessTrace.class_2 ≠ c2WitnessTrace.selected_class) :=
  c2_target_iff_same_class c2WitnessDs (fun k => k) 3 0 c2WitnessTrace rfl

/-- C8: the requested index influences __getitem__ only through its
parity (the only use of index is the test at line 178): two calls with
indices of equal parity, on the same state, the same oracle state and
the same fuel, return identical results. -/
theorem c8_result_depends_only_on_index_parity {Img : Type}
    (ds : IrisDataset Img) (rng : Nat → Nat) (fuel i j : Nat)
    (h : i % 2 = j % 2) :
    ds.getItemT rng fuel i = ds.getItemT rng fuel j := by
  simp only [IrisDataset.getItemT, h]

/-- Witness for C8: indices 0 and 2 on a freshly constructed dataset with
the identity oracle. -/
theorem c8_witness :
    (IrisDataset.init ([] : List Nat) [] 1 1 (fun n => n)).getItemT
        (fun k => k) 1 0
      = (IrisDataset.init ([] : List Nat) [] 1 1 (fun n => n)).getItemT
        (fun k => k) 1 2 :=
  c8_result_depends_only_on_index_parity _ (fun k => k) 1 0 2 rfl

/-- C10 (amended): on any state whose grouped_examples attribute is
present, __getitem__ only ever samples classes from the fixed range 0..9
(lines 165 and 198), independent of the classes actually present in the
dataset; and when the class randomly selected for the first image has no
examples, the random-index selection randint(0, -1) at line 169 raises
ValueError instead of returning a pair. -/
theorem c10_classes_from_fixed_range {Img : Type} (ds : IrisDataset Img)
    (grouped : List (List Nat)) (rng : Nat → Nat) (fuel index : Nat)
    (hg : ds.grouped_examples = some grouped) :
    (∀ t : PairTrace Img, ds.getItemT rng fuel index = Except.ok t →
      0 ≤ t.selected_class ∧ t.selected_class ≤ 9 ∧
      0 ≤ t.class_2 ∧ t.class_2 ≤ 9) ∧
    (grouped.getD (rng 0 % 10) [] = [] →
      ds.getItemT rng fuel index
        = Except.error "ValueError: empty range for randrange()") := by
  constructor
  · intro t h
    unfold IrisDataset.getItemT at h
    cases h1 : randint 0 9 (rng 0) with
    | error e => simp only [h1, ebind_err] at h; exact Except.noConfusion h
    | ok sc =>
    simp only [h1, ebind_ok] at h
    have hsc : 0 ≤ sc ∧ sc ≤ 9 := randint_ok_bounds 0 9 (rng 0) sc h1
    cases h2 : getAttr ds.grouped_examples "grouped_examples" with
    | error e => simp only [h2, ebind_err] at h; exact Except.noConfusion h
    | ok grouped2 =>
    simp only [h2, ebind_ok] at h
    cases h3 : randint 0 (((grouped2.getD sc.toNat []).length : Int) - 1) (rng 1) with
    | error e => simp only [h3, ebind_err] at h; exact Except.noConfusion h
    | ok r1 =>
    simp only [h3, ebind_ok] at h
    cases h4 : getAttr ds.data "data" with
    | error e => simp only [h4, ebind_err] at h; exact Except.noConfusion h
    | ok data =>
    simp only [h4, ebind_ok] at h
    cases h5 : listGet data ((grouped2.getD sc.toNat []).getD r1.toNat 0) with
    | error e => simp only [h5, ebind_err] at h; exact Except.noConfusion h
    | ok image1 =>
    simp only [h5, ebind_ok] at h
    by_cases hp : index % 2 = 0
    · rw [if_pos hp] at h
      cases h6 : redrawUntilNe (((grouped2.getD sc.toNat []).length : Int) - 1)
          r1 rng 2 fuel with
      | error e => simp only [h6, ebind_err] at h; exact Except.noConfusion h
      | ok rp =>
      simp only [h6, ebind_ok] at h
      cases h7 : listGet data ((grouped2.getD sc.toNat []).getD rp.1.toNat 0) with
      | error e => simp only [h7, ebind_err] at h; exact Except.noConfusion h
      | ok image2 =>
      simp only [h7, ebind_ok] at h
      injection h with h8
      subst h8
      exact ⟨hsc.1, hsc.2, hsc.1, hsc.2⟩
    · rw [if_neg hp] at h
      cases h6 : redrawUntilNe 9 sc rng 2 fuel with
      | error e => simp only [h6, ebind_err] at h; exact Except.noConfusion h
      | ok op =>
      simp only [h6, ebind_ok] at h
      have h6e : redrawUntilNe 9 sc rng 2 fuel = Except.ok (op.1, op.2) := by
        rw [Prod.mk.eta]
        exact h6
      have hoc : 0 ≤ op.1 ∧ op.1 ≤ 9 :=
        redrawUntilNe_ok_bounds 9 sc rng fuel 2 op.1 op.2 h6e
      cases h7 : randint 0 (((grouped2.getD op.1.toNat []).length : Int) - 1)
          (rng op.2) with
      | error e => simp only [h7, ebind_err] at h; exact Except.noConfusion h
      | ok r2 =>
      simp only [h7, ebind_ok] at h
      cases h8 : listGet data ((grouped2.getD op.1.toNat []).getD r2.toNat 0) with
      | error e => simp only [h8, ebind_err] at h; exact Except.noConfusion h
      | ok image2 =>
      simp only [h8, ebind_ok] at h
      injection h with h9
      subst h9
      exact ⟨hsc.1, hsc.2, hoc.1, hoc.2⟩
  · intro hempty
    have h1 : randint 0 9 (rng 0) = Except.ok ((rng 0 : Int) % 10) := by
      unfold randint
      rw [if_neg (by omega)]
      congr 1
      omega
    have hto : ((rng 0 : Int) % 10).toNat = rng 0 % 10 := by omega
    have herr : randint 0 ((([] : List Nat).length : Int) - 1) (rng 1)
        = Except.error "ValueError: empty range for randrange()" := by
      unfold randint
      rw [if_pos (by simp)]
    unfold IrisDataset.getItemT
    simp only [h1, ebind_ok, hg, getAttr, hto, hempty, herr, ebind_err]

/-- Shared grouped_examples table for the C10 counterexample and witness:
classes 0..8 each hold base index 0, class 9 is empty. -/
def c10Grouped : List (List Nat) :=
  [[0], [0], [0], [0], [0], [0], [0], [0], [0], []]

/-- Dataset state for the C10 counterexample and witness. -/
def c10Ds : IrisDataset Nat :=
  { images := []
    labels := []
    grouped_examples := some c10Grouped
    data := some [42]
    dataset_targets := none }

/-- Counterexample to C10 as stated: class 9 in the 0..9 range has no
examples, yet the odd-index call with the identity oracle never selects
class 9 and returns a pair instead of failing. -/
theorem c10_counterexample :
    c10Ds.grouped_examples = some c10Grouped ∧
    c10Grouped.getD 9 [] = [] ∧
    c10Ds.getItemT (fun k => k) 4 1
      = Except.ok
        { selected_class := 0
          class_2 := 2
          index_1 := 0
          index_2 := 0
          image_1 := 42
          image_2 := 42
          target := 0 } :=
  ⟨rfl, rfl, rfl⟩

/-- Witness for C10 (amended): under the constant oracle 9 the sampler
selects the empty class 9, and the call fails with ValueError. -/
theorem c10_witness :
    c10Ds.getItemT (fun _ => 9) 4 1
      = Except.error "ValueError: empty range for randrange()" :=
  (c10_classes_from_fixed_range c10Ds c10Grouped (fun _ => 9) 4 1 rfl).2 rfl

/-- C7: for every pair of inputs, forward equals the sigmoid of the
scalar that the two linear layers produce from the concatenation of the
two backbone feature vectors, and therefore lies strictly between 0
and 1 — for every choice of backbone and layer weights. -/
theorem c7_forward_is_sigmoid_in_unit_interval {Input : Type} {d : ℕ}
    (net : SiameseNetwork Input d) (x1 x2 : Input) :
    net.forward x1 x2
        = sigmoid (net.fc (Fin.append (net.back x1) (net.back x2))) ∧
    0 < net.forward x1 x2 ∧ net.forward x1 x2 < 1 :=
  ⟨rfl, sigmoid_pos _, sigmoid_lt_one _⟩
